import Mathlib

set_option maxRecDepth 4096

/-!
Shallow embedding of the QSPI flash font driver (`BSP/QSPI/flash_font.c` and
`BSP/QSPI/flash_font.h`), together with theorems settling the claims about it.

Flash contents are modelled at record granularity: the driver reads the flag
record, GB2312 table entries and UTF-8 table entries through the memory-mapped
window, so a `FlashImage` carries the flag magic and the two entry streams.
Machine integers are `Nat`/`Int` with explicit truncation (`% 2^w`) where the C
code converts between widths.
-/

/-! ### Address constants from `flash_font.h` -/

/-- Memory-mapped window base, `W25Qxx_Mem_Addr` in `flash_font.h`. -/
def W25Qxx_Mem_Addr : Nat := 0x90000000

/-- Constant `BASE_ADDR` from `flash_font.h`. -/
def BASE_ADDR : Nat := 0x1D00000

/-- Constant `FONT_12x12_ADDR` from `flash_font.h`. -/
def FONT_12x12_ADDR : Nat := BASE_ADDR + 0x0

/-- Constant `FONT_16x16_ADDR` from `flash_font.h`. -/
def FONT_16x16_ADDR : Nat := BASE_ADDR + 0x2BBE0

/-- Constant `FONT_20x20_ADDR` from `flash_font.h`. -/
def FONT_20x20_ADDR : Nat := BASE_ADDR + 0x66100

/-- Constant `FONT_24x24_ADDR` from `flash_font.h`. -/
def FONT_24x24_ADDR : Nat := BASE_ADDR + 0xD3680

/-- Constant `FONT_32x32_ADDR` from `flash_font.h`. -/
def FONT_32x32_ADDR : Nat := BASE_ADDR + 0x1569E0

/-- Constant `GB2312_TABLE_ADDR` from `flash_font.h`. -/
def GB2312_TABLE_ADDR : Nat := BASE_ADDR + 0x23FE00

/-- Constant `UTF8_TABLE_ADDR` from `flash_font.h`. -/
def UTF8_TABLE_ADDR : Nat := BASE_ADDR + 0x2472D0

/-- Constant `FONT_FLAG_ADDR` from `flash_font.h`. -/
def FONT_FLAG_ADDR : Nat := BASE_ADDR + 0x2572F0

/-- Constant `FLAG_MAGIC` from `flash_font.c` (ASCII "FLAG"). -/
def FLAG_MAGIC : Nat := 0x464C4147

/-! ### Data model -/

/-- One `GB2312_TableEntry_t` record: `{uint16 gbk_code; uint16 index;}`.
Fields hold the raw stored values; uint16 truncation is applied at each read. -/
structure GB2312_TableEntry where
  gbk_code : Nat
  index : Nat

/-- One `UTF8_TableEntry_t` record: `{uint8 utf8_len; uint8 utf8[4]; uint16 index;}`
(plus one reserved padding byte, irrelevant to behaviour). -/
structure UTF8_TableEntry where
  utf8_len : Nat
  utf8 : Nat → Nat
  index : Nat

/-- The memory-mapped flash contents as the driver reads them: the magic field
of the `FontWriteFlag_t` record at `FONT_FLAG_ADDR`, the GB2312 entry stream
starting 12 bytes into `GB2312_TABLE_ADDR`, and the UTF-8 entry stream starting
12 bytes into `UTF8_TABLE_ADDR`. -/
structure FlashImage where
  flagMagic : Nat
  gbTable : Nat → GB2312_TableEntry
  utf8Table : Nat → UTF8_TableEntry

/-- Driver state: the `static uint8_t g_font_initialized` flag of `flash_font.c`. -/
structure FontDriverState where
  g_font_ready : Bool

/-- Read `pEntry[i].gbk_code` (a uint16 field). -/
def gbCode (f : FlashImage) (i : Nat) : Nat := (f.gbTable i).gbk_code % 65536

/-- Read `pEntry[i].index` of the GB2312 table (a uint16 field). -/
def gbIdx (f : FlashImage) (i : Nat) : Nat := (f.gbTable i).index % 65536

/-- Read `pEntry[i].utf8_len` (a uint8 field). -/
def u8Len (f : FlashImage) (i : Nat) : Nat := (f.utf8Table i).utf8_len % 256

/-- Read `pEntry[i].utf8[j]` (a uint8 field). -/
def u8Byte (f : FlashImage) (i j : Nat) : Nat := ((f.utf8Table i).utf8 j) % 256

/-- Read `pEntry[i].index` of the UTF-8 table (a uint16 field). -/
def u8Idx (f : FlashImage) (i : Nat) : Nat := (f.utf8Table i).index % 65536

/-- C conversion of a nonnegative 16-bit pattern to `int16_t`
(the return type of the index lookups). -/
def toInt16 (n : Nat) : Int :=
  if n % 65536 < 32768 then ((n % 65536 : Nat) : Int) else ((n % 65536 : Nat) : Int) - 65536

/-! ### Pure helpers from `flash_font.c` -/

/-- Function `GetFontBaseAddr` from `flash_font.c`: switch on the uint8 font size. -/
def GetFontBaseAddr (font_size : Nat) : Nat :=
  if font_size % 256 = 12 then FONT_12x12_ADDR
  else if font_size % 256 = 16 then FONT_16x16_ADDR
  else if font_size % 256 = 20 then FONT_20x20_ADDR
  else if font_size % 256 = 24 then FONT_24x24_ADDR
  else if font_size % 256 = 32 then FONT_32x32_ADDR
  else 0

/-- Function `FlashFont_BytesPerChar` from `flash_font.c` (int16 return, -1 on bad size). -/
def FlashFont_BytesPerChar (font_size : Nat) : Int :=
  if font_size % 256 = 12 then 24
  else if font_size % 256 = 16 then 32
  else if font_size % 256 = 20 then 60
  else if font_size % 256 = 24 then 72
  else if font_size % 256 = 32 then 128
  else -1

/-- Function `FlashFont_Init` from `flash_font.c`: reads the uint32 magic of the flag record;
on mismatch returns -1 leaving the state unchanged, otherwise sets
`g_font_initialized` and returns 0. -/
def FlashFont_Init (st : FontDriverState) (f : FlashImage) : Int × FontDriverState :=
  if f.flagMagic % 4294967296 ≠ FLAG_MAGIC then (-1, st)
  else (0, { g_font_ready := true })

/-! ### GB2312 index lookup -/

/-- Value of a possibly-signed `char` holding byte `b` (sign extension when the
high bit is set and `char` is signed, as on targets with signed `char`). -/
def charSigned (b : Nat) : Int :=
  if b % 256 < 128 then (b % 256 : Int) else (b % 256 : Int) - 256

/-- C conversion of an `int` value to `uint16_t`. -/
def uint16_ofInt (x : Int) : Nat := (x % 65536).toNat

/-- The local `search_gbk = ((uint16_t)text[0] << 8) | (uint8_t)text[1]` from
`GB2312_FindIndex_Flash`, for input bytes `b0 b1`, with `char` read as a signed
type (the conversion chain: sign extension, cast to uint16, int promotion,
shift, bitwise or, truncation to uint16 at the assignment). -/
def search_gbk (b0 b1 : Nat) : Nat :=
  ((uint16_ofInt (charSigned b0)) <<< 8 ||| (b1 % 256)) % 65536

/-- The `for (i = 0; i < 7464; i++)` scan of `GB2312_FindIndex_Flash`, from
position `i` with `fuel` iterations left: break with -1 at `gbk_code == 0xFFFF`,
return the index of the entry on `gbk_code == search_gbk`. -/
def gbScanFrom (f : FlashImage) (key : Nat) (i : Nat) : Nat → Int
  | 0 => -1
  | fuel + 1 =>
    if gbCode f i = 0xFFFF then -1
    else if gbCode f i = key then toInt16 (gbIdx f i)
    else gbScanFrom f key (i + 1) fuel

/-- Function `GB2312_FindIndex_Flash` from `flash_font.c`, on input bytes `b0 b1`. -/
def GB2312_FindIndex_Flash (st : FontDriverState) (f : FlashImage) (b0 b1 : Nat) : Int :=
  if st.g_font_ready = false then -1
  else gbScanFrom f (search_gbk b0 b1) 0 7464

/-- Number of table records `gbScanFrom` examines (each loop iteration reads
record `i` through the memory-mapped window). -/
def gbScanReads (f : FlashImage) (key : Nat) (i : Nat) : Nat → Nat
  | 0 => 0
  | fuel + 1 =>
    if gbCode f i = 0xFFFF then 1
    else if gbCode f i = key then 1
    else 1 + gbScanReads f key (i + 1) fuel

/-- Number of flash table records `GB2312_FindIndex_Flash` reads: zero when the
driver is not initialized (the guard returns before touching the table). -/
def GB2312_FindIndex_reads (st : FontDriverState) (f : FlashImage) (b0 b1 : Nat) : Nat :=
  if st.g_font_ready = false then 0
  else gbScanReads f (search_gbk b0 b1) 0 7464

/-! ### UTF-8 index lookup -/

/-- The record test in the loop body of `UTF8_FindIndex_Flash`: the stored
`utf8_len` equals the query length and its first `utf8_len` stored bytes equal
the query bytes. -/
def u8EntryMatches (f : FlashImage) (i : Nat) (q : Nat → Nat) (len : Nat) : Bool :=
  u8Len f i = len && (List.range len).all (fun j => u8Byte f i j = q j % 256)

/-- The `for (i = 0; i < 7464; i++)` scan of `UTF8_FindIndex_Flash`: return the
index of the first fully matching record. Note the loop has no sentinel test. -/
def u8ScanFrom (f : FlashImage) (q : Nat → Nat) (len : Nat) (i : Nat) : Nat → Int
  | 0 => -1
  | fuel + 1 =>
    if u8EntryMatches f i q len then toInt16 (u8Idx f i)
    else u8ScanFrom f q len (i + 1) fuel

/-- Function `UTF8_FindIndex_Flash` from `flash_font.c`; `q = none` models a NULL
`utf8_text` pointer. -/
def UTF8_FindIndex_Flash (st : FontDriverState) (f : FlashImage)
    (q : Option (Nat → Nat)) (utf8_len : Nat) : Int :=
  if st.g_font_ready = false then -1
  else if utf8_len < 1 ∨ utf8_len > 4 ∨ q.isNone then -1
  else u8ScanFrom f (q.getD (fun _ => 0)) utf8_len 0 7464

/-- Number of table records `u8ScanFrom` examines. -/
def u8ScanReads (f : FlashImage) (q : Nat → Nat) (len : Nat) (i : Nat) : Nat → Nat
  | 0 => 0
  | fuel + 1 =>
    if u8EntryMatches f i q len then 1
    else 1 + u8ScanReads f q len (i + 1) fuel

/-- Number of flash table records `UTF8_FindIndex_Flash` reads: zero when a
guard (driver not initialized, bad length, NULL text) returns early. -/
def UTF8_FindIndex_reads (st : FontDriverState) (f : FlashImage)
    (q : Option (Nat → Nat)) (utf8_len : Nat) : Nat :=
  if st.g_font_ready = false then 0
  else if utf8_len < 1 ∨ utf8_len > 4 ∨ q.isNone then 0
  else u8ScanReads f (q.getD (fun _ => 0)) utf8_len 0 7464

/-! ### Glyph address computation -/

/-- Function `GB2312_FindFont_Flash` from `flash_font.c`: index lookup first, then the
size-dependent address arithmetic; `none` models a NULL return. The
`bytes_per_char` local is a `uint16_t`, hence the truncating conversion of the
int16 result of `FlashFont_BytesPerChar`. -/
def GB2312_FindFont_Flash (st : FontDriverState) (f : FlashImage)
    (b0 b1 : Nat) (font_size : Nat) : Option Nat :=
  let index := GB2312_FindIndex_Flash st f b0 b1
  if index < 0 then none
  else
    let font_offset := GetFontBaseAddr font_size
    let bytes_per_char := (FlashFont_BytesPerChar font_size % 65536).toNat
    if font_offset = 0 then none
    else some (W25Qxx_Mem_Addr + font_offset + 18 + index.toNat * bytes_per_char)

/-- Flash table records read during a `GB2312_FindFont_Flash` call: exactly the
reads of its unconditional `GB2312_FindIndex_Flash` call (the function itself
only computes an address and dereferences nothing). -/
def GB2312_FindFont_reads (st : FontDriverState) (f : FlashImage)
    (b0 b1 : Nat) (font_size : Nat) : Nat :=
  GB2312_FindIndex_reads st f b0 b1

/-- Function `GetUTF8CharLen` from `flash_font.c`: classify the leading byte; 0 for a
NULL pointer. -/
def GetUTF8CharLen (q : Option (Nat → Nat)) : Nat :=
  match q with
  | none => 0
  | some bytes =>
    let first_byte := bytes 0 % 256
    if first_byte &&& 0x80 = 0x00 then 1
    else if first_byte &&& 0xE0 = 0xC0 then 2
    else if first_byte &&& 0xF0 = 0xE0 then 3
    else if first_byte &&& 0xF8 = 0xF0 then 4
    else 1

/-- Function `UTF8_FindFont_Flash` from `flash_font.c`: derive the length with
`GetUTF8CharLen`, look the index up, then the same address arithmetic as the
GB2312 path. -/
def UTF8_FindFont_Flash (st : FontDriverState) (f : FlashImage)
    (q : Option (Nat → Nat)) (font_size : Nat) : Option Nat :=
  let utf8_len := GetUTF8CharLen q
  let index := UTF8_FindIndex_Flash st f q utf8_len
  if index < 0 then none
  else
    let font_offset := GetFontBaseAddr font_size
    let bytes_per_char := (FlashFont_BytesPerChar font_size % 65536).toNat
    if font_offset = 0 then none
    else some (W25Qxx_Mem_Addr + font_offset + 18 + index.toNat * bytes_per_char)

/-! ### Fixtures (concrete flash images for witnesses and counterexamples) -/

/-- Driver state after a successful `FlashFont_Init`. -/
def stReady : FontDriverState := ⟨true⟩

/-- Driver state before initialization. -/
def stCold : FontDriverState := ⟨false⟩

/-- A small populated flash image: GB2312 records (0xB0A1 ↦ 3), (0xC4E3 ↦ 7),
then the sentinel; UTF-8 records (E4 BD A0 ↦ 7, the UTF-8 form of the character
whose GBK code is 0xC4E3), then 0xFF padding. -/
def fixtureA : FlashImage where
  flagMagic := FLAG_MAGIC
  gbTable := fun i =>
    if i = 0 then ⟨0xB0A1, 3⟩ else if i = 1 then ⟨0xC4E3, 7⟩ else ⟨0xFFFF, 0⟩
  utf8Table := fun i =>
    if i = 0 then ⟨3, (fun j => if j = 0 then 0xE4 else if j = 1 then 0xBD
                                else if j = 2 then 0xA0 else 0), 7⟩
    else ⟨0xFF, (fun _ => 0xFF), 0⟩

/-- The three-byte UTF-8 query matching record 0 of the UTF-8 table in `fixtureA`. -/
def queryA : Nat → Nat := fun j => if j = 0 then 0xE4 else if j = 1 then 0xBD
                                   else if j = 2 then 0xA0 else 0

/-! ### Scan characterization lemmas -/

/-- Conversion `toInt16` is the identity below 2^15. -/
theorem toInt16_of_lt {n : Nat} (h : n < 32768) : toInt16 n = (n : Int) := by
  have h' : n < 65536 := by omega
  simp [toInt16, Nat.mod_eq_of_lt h', h]

/-- If no record within the remaining fuel carries the key, the GB2312 scan
reports -1 (whether it stops at a sentinel or exhausts the fuel). -/
theorem gbScanFrom_no_match (f : FlashImage) (key : Nat) :
    ∀ fuel i, (∀ d, d < fuel → gbCode f (i + d) ≠ key) → gbScanFrom f key i fuel = -1 := by
  intro fuel
  induction fuel with
  | zero => intro i _; rfl
  | succ n ih =>
    intro i h
    have h0 : gbCode f i ≠ key := by simpa using h 0 (Nat.succ_pos n)
    by_cases hs : gbCode f i = 0xFFFF
    · simp [gbScanFrom, hs]
    · have hrec := ih (i + 1) (fun d hd => by
        have hh := h (d + 1) (Nat.succ_lt_succ hd)
        rwa [show i + (d + 1) = i + 1 + d by omega] at hh)
      simp [gbScanFrom, hs, h0, hrec]

/-- If a sentinel record appears within the fuel and no earlier-or-equal record
carries the key, the GB2312 scan reports -1. -/
theorem gbScanFrom_sentinel_stop (f : FlashImage) (key : Nat) :
    ∀ fuel i d, d < fuel → gbCode f (i + d) = 0xFFFF →
      (∀ e, e ≤ d → gbCode f (i + e) ≠ key) → gbScanFrom f key i fuel = -1 := by
  intro fuel
  induction fuel with
  | zero => intro i d hd; exact absurd hd (Nat.not_lt_zero d)
  | succ n ih =>
    intro i d hd hs hk
    by_cases h0 : gbCode f i = 0xFFFF
    · simp [gbScanFrom, h0]
    · have hk0 : gbCode f i ≠ key := by simpa using hk 0 (Nat.zero_le d)
      cases d with
      | zero => exact absurd (by simpa using hs) h0
      | succ e =>
        have hrec := ih (i + 1) e (by omega)
          (by rwa [show i + 1 + e = i + (e + 1) by omega])
          (fun e' he' => by
            have hh := hk (e' + 1) (by omega)
            rwa [show i + (e' + 1) = i + 1 + e' by omega] at hh)
        simp [gbScanFrom, h0, hk0, hrec]

/-- If the first record that is either a sentinel or a key match is a key
match, the GB2312 scan returns the index field of that record. -/
theorem gbScanFrom_found (f : FlashImage) (key : Nat) :
    ∀ fuel i d, d < fuel → gbCode f (i + d) = key → key ≠ 0xFFFF →
      (∀ e, e < d → gbCode f (i + e) ≠ key ∧ gbCode f (i + e) ≠ 0xFFFF) →
      gbScanFrom f key i fuel = toInt16 (gbIdx f (i + d)) := by
  intro fuel
  induction fuel with
  | zero => intro i d hd; exact absurd hd (Nat.not_lt_zero d)
  | succ n ih =>
    intro i d hd hmatch hkey hfirst
    cases d with
    | zero =>
      have h0 : gbCode f i = key := by simpa using hmatch
      have hs : gbCode f i ≠ 0xFFFF := by rw [h0]; exact hkey
      simp [gbScanFrom, hs, h0, hkey]
    | succ e =>
      have h0 := hfirst 0 (Nat.succ_pos e)
      have h0k : gbCode f i ≠ key := by simpa using h0.1
      have h0s : gbCode f i ≠ 0xFFFF := by simpa using h0.2
      have hrec := ih (i + 1) e (by omega)
        (by rwa [show i + 1 + e = i + (e + 1) by omega])
        hkey
        (fun e' he' => by
          have hh := hfirst (e' + 1) (by omega)
          rwa [show i + (e' + 1) = i + 1 + e' by omega] at hh)
      rw [show i + (e + 1) = i + 1 + e by omega]
      simp [gbScanFrom, h0k, h0s, hrec]

/-- Claim C1: with the driver initialized, `GB2312_FindIndex_Flash` scans the
GB2312 records sequentially: it returns the index field of the first record
whose `gbk_code` equals the search key when that record precedes any sentinel;
it returns -1 when the key is absent from the 7464-record window (wherever the
sentinel lies); and it returns -1 when a sentinel record precedes any match. -/
theorem C1_gb2312_index_resolution
    (st : FontDriverState) (f : FlashImage) (b0 b1 : Nat)
    (hready : st.g_font_ready = true)
    (hwf : ∀ i, i < 7464 → gbIdx f i < 32768) :
    (∀ i, i < 7464 → gbCode f i = search_gbk b0 b1 → search_gbk b0 b1 ≠ 0xFFFF →
        (∀ j, j < i → gbCode f j ≠ search_gbk b0 b1 ∧ gbCode f j ≠ 0xFFFF) →
        GB2312_FindIndex_Flash st f b0 b1 = gbIdx f i)
    ∧ ((∀ i, i < 7464 → gbCode f i ≠ search_gbk b0 b1) →
        GB2312_FindIndex_Flash st f b0 b1 = -1)
    ∧ (∀ s, s < 7464 → gbCode f s = 0xFFFF →
        (∀ j, j ≤ s → gbCode f j ≠ search_gbk b0 b1) →
        GB2312_FindIndex_Flash st f b0 b1 = -1) := by
  refine ⟨?_, ?_, ?_⟩
  · intro i hi hcode hkey hfirst
    have h := gbScanFrom_found f (search_gbk b0 b1) 7464 0 i hi
      (by simpa using hcode) hkey (fun e he => by simpa using hfirst e he)
    rw [GB2312_FindIndex_Flash, hready]
    simpa [toInt16_of_lt (hwf i hi)] using h
  · intro habsent
    have h := gbScanFrom_no_match f (search_gbk b0 b1) 7464 0
      (fun d hd => by simpa using habsent d hd)
    rw [GB2312_FindIndex_Flash, hready]
    simpa using h
  · intro s hs hsent hbefore
    have h := gbScanFrom_sentinel_stop f (search_gbk b0 b1) 7464 0 s hs
      (by simpa using hsent) (fun e he => by simpa using hbefore e he)
    rw [GB2312_FindIndex_Flash, hready]
    simpa using h

/-- Witness for C1: in `fixtureA`, the key 0xC4E3 (bytes 0xC4 0xE3) is the
second record, before the sentinel, and the lookup returns its index 7. -/
theorem C1_witness :
    GB2312_FindIndex_Flash stReady fixtureA 0xC4 0xE3 = gbIdx fixtureA 1 :=
  (C1_gb2312_index_resolution stReady fixtureA 0xC4 0xE3 rfl
      (by intro i _; by_cases h0 : i = 0 <;> by_cases h1 : i = 1 <;>
          simp [gbIdx, fixtureA, h0, h1])).1
    1 (by decide) (by decide) (by decide) (by decide)

/-- A flash image whose UTF-8 table starts with an all-0xFF record (the
"sentinel" shape: index field 0xFFFF) followed by a populated record. -/
def fixtureSentinelFirst : FlashImage where
  flagMagic := FLAG_MAGIC
  gbTable := fun _ => ⟨0xFFFF, 0⟩
  utf8Table := fun i =>
    if i = 0 then ⟨0xFF, (fun _ => 0xFF), 0xFFFF⟩
    else if i = 1 then ⟨1, (fun j => if j = 0 then 0x41 else 0), 5⟩
    else ⟨0xFF, (fun _ => 0xFF), 0xFFFF⟩

/-- A single-byte query matching record 1 of the UTF-8 table in `fixtureSentinelFirst`. -/
def queryB : Nat → Nat := fun _ => 0x41

/-- The loop-body test of the UTF-8 scan, as a proposition on the record. -/
theorem u8EntryMatches_iff (f : FlashImage) (i : Nat) (q : Nat → Nat) (len : Nat) :
    u8EntryMatches f i q len = true ↔
      (u8Len f i = len ∧ ∀ j, j < len → u8Byte f i j = q j % 256) := by
  simp [u8EntryMatches, List.all_eq_true, List.mem_range]

/-- If no record within the fuel matches, the UTF-8 scan reports -1. -/
theorem u8ScanFrom_no_match (f : FlashImage) (q : Nat → Nat) (len : Nat) :
    ∀ fuel i, (∀ d, d < fuel → u8EntryMatches f (i + d) q len = false) →
      u8ScanFrom f q len i fuel = -1 := by
  intro fuel
  induction fuel with
  | zero => intro i _; rfl
  | succ n ih =>
    intro i h
    have h0 : u8EntryMatches f i q len = false := by simpa using h 0 (Nat.succ_pos n)
    have hrec := ih (i + 1) (fun d hd => by
      have hh := h (d + 1) (Nat.succ_lt_succ hd)
      rwa [show i + (d + 1) = i + 1 + d by omega] at hh)
    simp [u8ScanFrom, h0, hrec]

/-- The index of the first matching record is returned, whatever the earlier
records hold. -/
theorem u8ScanFrom_found (f : FlashImage) (q : Nat → Nat) (len : Nat) :
    ∀ fuel i d, d < fuel → u8EntryMatches f (i + d) q len = true →
      (∀ e, e < d → u8EntryMatches f (i + e) q len = false) →
      u8ScanFrom f q len i fuel = toInt16 (u8Idx f (i + d)) := by
  intro fuel
  induction fuel with
  | zero => intro i d hd; exact absurd hd (Nat.not_lt_zero d)
  | succ n ih =>
    intro i d hd hmatch hfirst
    cases d with
    | zero =>
      have h0 : u8EntryMatches f i q len = true := by simpa using hmatch
      simp [u8ScanFrom, h0]
    | succ e =>
      have h0 : u8EntryMatches f i q len = false := by
        simpa using hfirst 0 (Nat.succ_pos e)
      have hrec := ih (i + 1) e (by omega)
        (by rwa [show i + 1 + e = i + (e + 1) by omega])
        (fun e' he' => by
          have hh := hfirst (e' + 1) (by omega)
          rwa [show i + (e' + 1) = i + 1 + e' by omega] at hh)
      rw [show i + (e + 1) = i + 1 + e by omega]
      simp [u8ScanFrom, h0, hrec]

/-- The UTF-8 scan either reports -1 or returns the index field of some
matching record within the fuel. -/
theorem u8ScanFrom_result (f : FlashImage) (q : Nat → Nat) (len : Nat) :
    ∀ fuel i, u8ScanFrom f q len i fuel = -1 ∨
      ∃ d, d < fuel ∧ u8EntryMatches f (i + d) q len = true ∧
        u8ScanFrom f q len i fuel = toInt16 (u8Idx f (i + d)) := by
  intro fuel
  induction fuel with
  | zero => intro i; exact Or.inl rfl
  | succ n ih =>
    intro i
    by_cases h0 : u8EntryMatches f i q len = true
    · right
      exact ⟨0, Nat.succ_pos n, by simpa using h0, by simp [u8ScanFrom, h0]⟩
    · rcases ih (i + 1) with hneg | ⟨d, hd, hm, hv⟩
      · left; simp [u8ScanFrom, h0, hneg]
      · right
        refine ⟨d + 1, Nat.succ_lt_succ hd, ?_, ?_⟩
        · rwa [show i + (d + 1) = i + 1 + d by omega]
        · rw [show i + (d + 1) = i + 1 + d by omega]
          simp [u8ScanFrom, h0, hv]

/-- Claim C3: with the driver initialized and a query of length 1–4, the UTF-8
lookup returns an index only from a record whose `utf8_len` equals the query
length and whose stored bytes all equal the query bytes (so a same-length
record with any byte mismatch is never the source of the result), and the
index of the first such matching record is what a present key resolves to. -/
theorem C3_utf8_index_match
    (st : FontDriverState) (f : FlashImage) (q : Nat → Nat) (len : Nat)
    (hready : st.g_font_ready = true)
    (hlen1 : 1 ≤ len) (hlen4 : len ≤ 4)
    (hq : ∀ j, j < len → q j < 256)
    (hwf : ∀ i, i < 7464 → u8Idx f i < 32768) :
    (∀ r : Int, UTF8_FindIndex_Flash st f (some q) len = r → 0 ≤ r →
        ∃ i, i < 7464 ∧ u8Len f i = len ∧ (∀ j, j < len → u8Byte f i j = q j) ∧
          r = u8Idx f i)
    ∧ (∀ i, i < 7464 → u8Len f i = len → (∀ j, j < len → u8Byte f i j = q j) →
        (∀ i', i' < i → u8EntryMatches f i' q len = false) →
        UTF8_FindIndex_Flash st f (some q) len = u8Idx f i) := by
  have hguard : UTF8_FindIndex_Flash st f (some q) len =
      u8ScanFrom f q len 0 7464 := by
    have h1 : ¬ (len < 1) := by omega
    have h2 : ¬ (len > 4) := by omega
    rw [UTF8_FindIndex_Flash, hready]
    simp [h1, h2]
  constructor
  · intro r hr hpos
    rcases u8ScanFrom_result f q len 7464 0 with hneg | ⟨d, hd, hm, hv⟩
    · rw [hguard, hneg] at hr; omega
    · rw [Nat.zero_add] at hm hv
      rw [hguard, hv] at hr
      rcases (u8EntryMatches_iff f d q len).mp hm with ⟨hl, hb⟩
      refine ⟨d, hd, hl, ?_, ?_⟩
      · intro j hj
        have := hb j hj
        rwa [Nat.mod_eq_of_lt (hq j hj)] at this
      · rw [← hr]
        exact toInt16_of_lt (hwf d hd)
  · intro i hi hl hb hfirst
    have hm : u8EntryMatches f i q len = true := by
      refine (u8EntryMatches_iff f i q len).mpr ⟨hl, fun j hj => ?_⟩
      rw [Nat.mod_eq_of_lt (hq j hj)]; exact hb j hj
    have h := u8ScanFrom_found f q len 7464 0 i hi (by simpa using hm)
      (fun e he => by simpa using hfirst e he)
    rw [hguard]
    simpa [toInt16_of_lt (hwf i hi)] using h

/-- Witness for C3: the three-byte query E4 BD A0 matches record 0 of the
UTF-8 table in `fixtureA` and resolves to its recorded index 7. -/
theorem C3_witness :
    UTF8_FindIndex_Flash stReady fixtureA (some queryA) 3 = u8Idx fixtureA 0 :=
  (C3_utf8_index_match stReady fixtureA queryA 3 rfl (by decide) (by decide)
      (by intro j _; by_cases h0 : j = 0 <;> by_cases h1 : j = 1 <;>
          by_cases h2 : j = 2 <;> simp [queryA, h0, h1, h2])
      (by intro i _; by_cases h0 : i = 0 <;> simp [u8Idx, fixtureA, h0])).2
    0 (by decide) (by decide) (by decide) (by intro i' hi'; omega)

/-- Counterexample to C2: record 0 of the UTF-8 table in `fixtureSentinelFirst` is an
all-0xFF "sentinel" record (index field 0xFFFF), yet the lookup for the
single-byte query 0x41 returns the index 5 of record 1 instead of stopping with -1:
the UTF-8 scan performs no sentinel test. -/
theorem C2_counterexample :
    u8Len fixtureSentinelFirst 0 = 0xFF ∧
    u8Idx fixtureSentinelFirst 0 = 0xFFFF ∧
    (∀ j, j < 4 → u8Byte fixtureSentinelFirst 0 j = 0xFF) ∧
    UTF8_FindIndex_Flash stReady fixtureSentinelFirst (some queryB) 1 = 5 := by
  refine ⟨rfl, rfl, by decide, ?_⟩
  have h := u8ScanFrom_found fixtureSentinelFirst queryB 1 7464 0 1 (by omega)
    (by decide) (by intro e he; interval_cases e; decide)
  rw [show UTF8_FindIndex_Flash stReady fixtureSentinelFirst (some queryB) 1 =
      u8ScanFrom fixtureSentinelFirst queryB 1 0 7464 from by
    rw [UTF8_FindIndex_Flash]; simp [stReady]]
  simpa [toInt16] using h

/-- Claim C2 (amended): `UTF8_FindIndex_Flash` is capacity-terminated, not
sentinel-terminated: it returns -1 exactly when none of the 7464 records
matches the query, and it returns the index of the first matching record whatever
the earlier records contain — in particular a record located after a
sentinel-shaped entry can be returned as a match. -/
theorem C2_amended_capacity_scan
    (st : FontDriverState) (f : FlashImage) (q : Nat → Nat) (len : Nat)
    (hready : st.g_font_ready = true)
    (hlen1 : 1 ≤ len) (hlen4 : len ≤ 4) :
    ((∀ i, i < 7464 → u8EntryMatches f i q len = false) →
        UTF8_FindIndex_Flash st f (some q) len = -1)
    ∧ (∀ i, i < 7464 → u8EntryMatches f i q len = true →
        (∀ i', i' < i → u8EntryMatches f i' q len = false) →
        u8Idx f i < 32768 →
        UTF8_FindIndex_Flash st f (some q) len = u8Idx f i) := by
  have hguard : UTF8_FindIndex_Flash st f (some q) len =
      u8ScanFrom f q len 0 7464 := by
    have h1 : ¬ (len < 1) := by omega
    have h2 : ¬ (len > 4) := by omega
    rw [UTF8_FindIndex_Flash, hready]
    simp [h1, h2]
  constructor
  · intro habsent
    rw [hguard]
    exact u8ScanFrom_no_match f q len 7464 0 (fun d hd => by simpa using habsent d hd)
  · intro i hi hm hfirst hidx
    have h := u8ScanFrom_found f q len 7464 0 i hi (by simpa using hm)
      (fun e he => by simpa using hfirst e he)
    rw [hguard]
    simpa [toInt16_of_lt hidx] using h

/-- Witness for the amended C2: in `fixtureSentinelFirst`, the first matching
record for query 0x41 is record 1, located after the sentinel-shaped record 0,
and the lookup returns its index 5. -/
theorem C2_amended_witness :
    UTF8_FindIndex_Flash stReady fixtureSentinelFirst (some queryB) 1 =
      u8Idx fixtureSentinelFirst 1 :=
  (C2_amended_capacity_scan stReady fixtureSentinelFirst queryB 1 rfl
      (by decide) (by decide)).2
    1 (by decide) (by decide) (by intro i' hi'; interval_cases i' <;> decide)
    (by decide)

/-! ### The search key and the UTF-8 length classifier -/

/-- Shifting left by 8 then or-ing a byte is plain addition. -/
theorem shiftLeft8_lor_eq_add (x y : Nat) (h : y < 256) :
    (x <<< 8) ||| y = x * 256 + y := by
  apply Nat.eq_of_testBit_eq
  intro j
  rw [Nat.testBit_lor, Nat.testBit_shiftLeft]
  have hmul : x * 256 + y = 2 ^ 8 * x + y := by ring_nf
  rw [hmul, Nat.testBit_mul_pow_two_add x (by omega : y < 2 ^ 8) j]
  by_cases hj : j < 8
  · have hng : ¬ (j ≥ 8) := by omega
    simp [hj, hng]
  · have hge : j ≥ 8 := by omega
    have hy : y.testBit j = false := Nat.testBit_lt_two_pow (by
      calc y < 256 := h
        _ = 2 ^ 8 := by norm_num
        _ ≤ 2 ^ j := Nat.pow_le_pow_right (by norm_num) hge)
    simp [hj, hge, hy]

/-- Claim C9: the GB2312 search key is the 16-bit big-endian value of the two
input bytes, `((b0 << 8) | b1) mod 2^16` — also when the leading byte has its
high bit set and `char` is signed (`search_gbk` models exactly that conversion
chain: sign extension, cast to uint16, promotion, shift, or, truncation). -/
theorem C9_search_key_big_endian (b0 b1 : Nat) (hb0 : b0 < 256) (hb1 : b1 < 256) :
    search_gbk b0 b1 = ((b0 <<< 8) ||| b1) % 65536 := by
  have hb1m : b1 % 256 = b1 := Nat.mod_eq_of_lt hb1
  have hb0m : b0 % 256 = b0 := Nat.mod_eq_of_lt hb0
  rw [search_gbk,
    shiftLeft8_lor_eq_add _ (b1 % 256) (Nat.mod_lt _ (by norm_num)),
    shiftLeft8_lor_eq_add b0 b1 hb1, hb1m]
  have hval : uint16_ofInt (charSigned b0) = b0 ∨
      uint16_ofInt (charSigned b0) = b0 + 65280 := by
    unfold uint16_ofInt charSigned
    rw [hb0m]
    split
    · left; omega
    · right; omega
  rcases hval with hv | hv <;> rw [hv]
  omega

/-- Witness for C9: the byte pair 0xC4 0xE3 yields the key 0xC4E3. -/
theorem C9_witness : search_gbk 0xC4 0xE3 = ((0xC4 <<< 8) ||| 0xE3) % 65536 :=
  C9_search_key_big_endian 0xC4 0xE3 (by decide) (by decide)

/-- Claim C8: on a non-NULL input, `GetUTF8CharLen` classifies by the leading
byte: high bit clear → 1; `110xxxxx` → 2; `1110xxxx` → 3; `11110xxx` → 4;
anything else defaults to 1. The bit patterns are phrased through the value of
the leading bits (`fb / 128`, `fb / 32`, `fb / 16`, `fb / 8`). -/
theorem C8_utf8_len_classifier (bytes : Nat → Nat) :
    GetUTF8CharLen (some bytes) =
      (if (bytes 0 % 256) / 128 = 0 then 1
       else if (bytes 0 % 256) / 32 = 6 then 2
       else if (bytes 0 % 256) / 16 = 14 then 3
       else if (bytes 0 % 256) / 8 = 30 then 4
       else 1) := by
  have key : ∀ fb, fb < 256 →
      ((if fb &&& 0x80 = 0x00 then 1
        else if fb &&& 0xE0 = 0xC0 then 2
        else if fb &&& 0xF0 = 0xE0 then 3
        else if fb &&& 0xF8 = 0xF0 then 4
        else 1) : Nat) =
      (if fb / 128 = 0 then 1
       else if fb / 32 = 6 then 2
       else if fb / 16 = 14 then 3
       else if fb / 8 = 30 then 4
       else 1) := by decide
  have h := key (bytes 0 % 256) (Nat.mod_lt _ (by norm_num))
  simpa [GetUTF8CharLen] using h

/-! ### Glyph addressing claims -/

/-- Claim C4: both `GB2312_FindFont_Flash` and `UTF8_FindFont_Flash` compute
the same function of (glyph index, font size); hence whenever the two lookups
resolve to the same index, they return the identical glyph data address. -/
theorem C4_shared_glyph_address
    (st1 st2 : FontDriverState) (f1 f2 : FlashImage) (b0 b1 : Nat)
    (q : Option (Nat → Nat))
    (hsame : GB2312_FindIndex_Flash st1 f1 b0 b1 =
             UTF8_FindIndex_Flash st2 f2 q (GetUTF8CharLen q)) :
    ∀ font_size, GB2312_FindFont_Flash st1 f1 b0 b1 font_size =
      UTF8_FindFont_Flash st2 f2 q font_size := by
  intro s
  simp only [GB2312_FindFont_Flash, UTF8_FindFont_Flash]
  rw [hsame]

/-- Witness for C4: in `fixtureA` the GBK bytes 0xC4 0xE3 and the UTF-8 bytes
E4 BD A0 both resolve to glyph index 7, and the two size-16 glyph addresses
coincide. -/
theorem C4_witness :
    GB2312_FindFont_Flash stReady fixtureA 0xC4 0xE3 16 =
      UTF8_FindFont_Flash stReady fixtureA (some queryA) 16 :=
  C4_shared_glyph_address stReady stReady fixtureA fixtureA 0xC4 0xE3
    (some queryA) (by decide) 16

/-- Claim C5: for the supported sizes the glyph address is linear in the glyph
index: a lookup that resolved to index `i` yields the address
`base(s) + 18 + i * bytes_per_glyph(s)`, where `bytes_per_glyph` is the fixed
table {12↦24, 16↦32, 20↦60, 24↦72, 32↦128}; consecutive indices differ by
exactly the per-size stride. -/
theorem C5_glyph_address_linear
    (st : FontDriverState) (f : FlashImage) (b0 b1 : Nat) (s i : Nat)
    (hs : s = 12 ∨ s = 16 ∨ s = 20 ∨ s = 24 ∨ s = 32)
    (hfind : GB2312_FindIndex_Flash st f b0 b1 = (i : Int)) :
    GB2312_FindFont_Flash st f b0 b1 s =
      some (W25Qxx_Mem_Addr + GetFontBaseAddr s + 18 +
        i * (FlashFont_BytesPerChar s).toNat)
    ∧ (FlashFont_BytesPerChar 12 = 24 ∧ FlashFont_BytesPerChar 16 = 32 ∧
       FlashFont_BytesPerChar 20 = 60 ∧ FlashFont_BytesPerChar 24 = 72 ∧
       FlashFont_BytesPerChar 32 = 128)
    ∧ (∀ j : Nat,
        (W25Qxx_Mem_Addr + GetFontBaseAddr s + 18 +
          (j + 1) * (FlashFont_BytesPerChar s).toNat) -
        (W25Qxx_Mem_Addr + GetFontBaseAddr s + 18 +
          j * (FlashFont_BytesPerChar s).toNat) =
        (FlashFont_BytesPerChar s).toNat) := by
  refine ⟨?_, by decide, ?_⟩
  · rcases hs with h | h | h | h | h <;> subst h <;>
      simp [GB2312_FindFont_Flash, hfind, GetFontBaseAddr, FlashFont_BytesPerChar,
        FONT_12x12_ADDR, FONT_16x16_ADDR, FONT_20x20_ADDR, FONT_24x24_ADDR,
        FONT_32x32_ADDR, BASE_ADDR, W25Qxx_Mem_Addr]
  · intro j
    rcases hs with h | h | h | h | h <;> subst h <;>
      simp [GetFontBaseAddr, FlashFont_BytesPerChar, FONT_12x12_ADDR,
        FONT_16x16_ADDR, FONT_20x20_ADDR, FONT_24x24_ADDR, FONT_32x32_ADDR,
        BASE_ADDR, W25Qxx_Mem_Addr] <;> omega

/-- Witness for C5: the size-16 glyph address for the resolved index 7 in
`fixtureA`. -/
theorem C5_witness :
    GB2312_FindFont_Flash stReady fixtureA 0xC4 0xE3 16 =
      some (W25Qxx_Mem_Addr + GetFontBaseAddr 16 + 18 +
        7 * (FlashFont_BytesPerChar 16).toNat) :=
  (C5_glyph_address_linear stReady fixtureA 0xC4 0xE3 16 7
      (Or.inr (Or.inl rfl)) (by decide)).1

/-! ### Initialization gating and error handling -/

/-- Claim C6: `FlashFont_Init` succeeds (returns 0 and sets the ready flag)
exactly when the magic of the flag record equals 0x464C4147; on mismatch it returns
a negative value with the flag still unset; and while the flag is unset both
index lookups return -1 after zero table-record reads. -/
theorem C6_init_gates_lookups
    (f : FlashImage) (st0 : FontDriverState) (h0 : st0.g_font_ready = false) :
    ((f.flagMagic % 4294967296 = FLAG_MAGIC) →
        (FlashFont_Init st0 f).1 = 0 ∧ (FlashFont_Init st0 f).2.g_font_ready = true)
    ∧ ((f.flagMagic % 4294967296 ≠ FLAG_MAGIC) →
        (FlashFont_Init st0 f).1 < 0 ∧ (FlashFont_Init st0 f).2.g_font_ready = false)
    ∧ (∀ b0 b1, GB2312_FindIndex_Flash st0 f b0 b1 = -1 ∧
        GB2312_FindIndex_reads st0 f b0 b1 = 0)
    ∧ (∀ q len, UTF8_FindIndex_Flash st0 f q len = -1 ∧
        UTF8_FindIndex_reads st0 f q len = 0) := by
  refine ⟨?_, ?_, ?_, ?_⟩
  · intro h; simp [FlashFont_Init, h]
  · intro h; simp [FlashFont_Init, h, h0]
  · intro b0 b1; simp [GB2312_FindIndex_Flash, GB2312_FindIndex_reads, h0]
  · intro q len; simp [UTF8_FindIndex_Flash, UTF8_FindIndex_reads, h0]

/-- Witness for C6: `fixtureA` carries the correct magic, so initialization
succeeds from the cold state; before initialization the GB2312 lookup fails
with zero record reads. -/
theorem C6_witness :
    (FlashFont_Init stCold fixtureA).1 = 0 ∧
    (FlashFont_Init stCold fixtureA).2.g_font_ready = true ∧
    GB2312_FindIndex_Flash stCold fixtureA 0xC4 0xE3 = -1 ∧
    GB2312_FindIndex_reads stCold fixtureA 0xC4 0xE3 = 0 :=
  ⟨((C6_init_gates_lookups fixtureA stCold rfl).1 (by decide)).1,
   ((C6_init_gates_lookups fixtureA stCold rfl).1 (by decide)).2,
   ((C6_init_gates_lookups fixtureA stCold rfl).2.2.1 0xC4 0xE3).1,
   ((C6_init_gates_lookups fixtureA stCold rfl).2.2.1 0xC4 0xE3).2⟩

/-- Counterexample to C7: with the driver initialized on `fixtureA`, the call
`GB2312_FindFont_Flash(.., 13)` (size 13 is unsupported) does return NULL, but
it is not aborted before any flash read: its unconditional index lookup has
already read 2 table records from flash when the size check rejects the call. -/
theorem C7_counterexample :
    GB2312_FindFont_Flash stReady fixtureA 0xC4 0xE3 13 = none ∧
    GB2312_FindFont_reads stReady fixtureA 0xC4 0xE3 13 = 2 := by decide

/-- Claim C7 (amended): for every font size outside {12,16,20,24,32} both
FindFont functions return NULL with no fallback to another size; the rejection
happens only after the unconditional index lookup, however, so table-scan
flash reads do occur before the operation is abandoned (no glyph-data read is
ever performed for the invalid size). -/
theorem C7_unsupported_size_rejected
    (st : FontDriverState) (f : FlashImage) (b0 b1 : Nat) (q : Option (Nat → Nat))
    (s : Nat) (hs : s < 256)
    (h12 : s ≠ 12) (h16 : s ≠ 16) (h20 : s ≠ 20) (h24 : s ≠ 24) (h32 : s ≠ 32) :
    GB2312_FindFont_Flash st f b0 b1 s = none ∧
    UTF8_FindFont_Flash st f q s = none := by
  have hm : s % 256 = s := Nat.mod_eq_of_lt hs
  have hbase : GetFontBaseAddr s = 0 := by
    simp [GetFontBaseAddr, hm, h12, h16, h20, h24, h32]
  constructor
  · rw [GB2312_FindFont_Flash]
    by_cases hidx : GB2312_FindIndex_Flash st f b0 b1 < 0 <;> simp [hidx, hbase]
  · rw [UTF8_FindFont_Flash]
    by_cases hidx : UTF8_FindIndex_Flash st f q (GetUTF8CharLen q) < 0 <;>
      simp [hidx, hbase]

/-- Witness for the amended C7: size 13 on `fixtureA` is rejected with NULL by
both FindFont functions. -/
theorem C7_amended_witness :
    GB2312_FindFont_Flash stReady fixtureA 0xC4 0xE3 13 = none ∧
    UTF8_FindFont_Flash stReady fixtureA (some queryA) 13 = none :=
  C7_unsupported_size_rejected stReady fixtureA 0xC4 0xE3 (some queryA) 13
    (by decide) (by decide) (by decide) (by decide) (by decide) (by decide)

/-! ### Region containment -/

/-- The base offset of the region that follows each glyph region in the flash
layout of `flash_font.h`. -/
def regionCap (s : Nat) : Nat :=
  if s = 12 then FONT_16x16_ADDR
  else if s = 16 then FONT_20x20_ADDR
  else if s = 20 then FONT_24x24_ADDR
  else if s = 24 then FONT_32x32_ADDR
  else if s = 32 then GB2312_TABLE_ADDR
  else 0

/-- Claim C10: for every glyph index below 7464 and every supported size, the
stride-sized byte range `[base(s) + 18 + i*stride(s), base(s) + 18 +
(i+1)*stride(s))` ends at or below the base offset of the next region, and the
regions are laid out in strictly increasing order, so no valid glyph read
overlaps the region of another size or the lookup tables. -/
theorem C10_region_containment (s i : Nat)
    (hs : s = 12 ∨ s = 16 ∨ s = 20 ∨ s = 24 ∨ s = 32) (hi : i < 7464) :
    GetFontBaseAddr s + 18 + (i + 1) * (FlashFont_BytesPerChar s).toNat ≤ regionCap s
    ∧ (FONT_12x12_ADDR < FONT_16x16_ADDR ∧ FONT_16x16_ADDR < FONT_20x20_ADDR ∧
       FONT_20x20_ADDR < FONT_24x24_ADDR ∧ FONT_24x24_ADDR < FONT_32x32_ADDR ∧
       FONT_32x32_ADDR < GB2312_TABLE_ADDR) := by
  refine ⟨?_, by decide⟩
  rcases hs with h | h | h | h | h <;> subst h <;>
    simp [GetFontBaseAddr, FlashFont_BytesPerChar, regionCap, FONT_12x12_ADDR,
      FONT_16x16_ADDR, FONT_20x20_ADDR, FONT_24x24_ADDR, FONT_32x32_ADDR,
      GB2312_TABLE_ADDR, BASE_ADDR] <;> omega

/-- Witness for C10: the last valid glyph (index 7463) of the 12x12 region
still ends at or below the base of the 16x16 region. -/
theorem C10_witness :
    GetFontBaseAddr 12 + 18 + (7463 + 1) * (FlashFont_BytesPerChar 12).toNat ≤
      regionCap 12 :=
  (C10_region_containment 12 7463 (Or.inl rfl) (by decide)).1
